import Mathlib

/-
  Verification of the h5lite HDF5 verification script (scripts/verify_h5.py).

  The script opens a fixed HDF5 file and checks datasets and attributes
  against expected literals.  We embed its comparison and decoding logic:
  numpy arrays become NDArray values (a dtype, a shape and flattened data),
  Python floats become exact fractions (Frac), and each check produces a
  CheckResult mirroring the printed PASS and FAIL messages.  The main
  script body becomes runChecks and runScript over an abstract file model.
-/

/-- Exact fraction with a positive denominator, modelling a Python float
value.  The denominator is stored as dm1 + 1 so that it is positive by
construction and all operations stay kernel-computable (no gcd
normalisation is performed). -/
structure Frac where
  num : Int
  dm1 : Nat
deriving DecidableEq, Repr

/-- The (always positive) denominator. -/
def Frac.den (x : Frac) : Nat := x.dm1 + 1

/-- Build a fraction n / d for d at least 1. -/
def fr (n : Int) (d : Nat) : Frac := ⟨n, d - 1⟩

/-- Embed an integer as a fraction with denominator 1. -/
def Frac.ofInt (n : Int) : Frac := ⟨n, 0⟩

/-- Difference of fractions, by cross multiplication. -/
def Frac.sub (x y : Frac) : Frac :=
  ⟨x.num * (y.den : Int) - y.num * (x.den : Int), x.den * y.den - 1⟩

/-- Sum of fractions, by cross multiplication. -/
def Frac.add (x y : Frac) : Frac :=
  ⟨x.num * (y.den : Int) + y.num * (x.den : Int), x.den * y.den - 1⟩

/-- Product of fractions. -/
def Frac.mul (x y : Frac) : Frac :=
  ⟨x.num * y.num, x.den * y.den - 1⟩

/-- Absolute value of a fraction. -/
def Frac.abs (x : Frac) : Frac := ⟨|x.num|, x.dm1⟩

/-- Boolean comparison x less-or-equal y, by cross multiplication. -/
def Frac.le (x y : Frac) : Bool :=
  decide (x.num * (y.den : Int) ≤ y.num * (x.den : Int))

/-- Boolean equality of the represented rational values. -/
def Frac.eqb (x y : Frac) : Bool :=
  decide (x.num * (y.den : Int) = y.num * (x.den : Int))

/-- The rational value a fraction denotes. -/
def Frac.toRat (x : Frac) : ℚ := (x.num : ℚ) / (x.den : ℚ)

/-- Element of a numpy array after conversion: a numeric value or a
text value (decoded strings). -/
inductive Elem where
  | num : Frac → Elem
  | str : String → Elem
deriving DecidableEq, Repr

/-- The dtype kinds the script distinguishes.  check_eq only asks whether
the dtype is a floating dtype (np.issubdtype(dtype, np.floating)). -/
inductive DType where
  | float
  | int
  | bool
  | str
deriving DecidableEq, Repr

/-- A numpy array as produced by np.array inside check_eq: a dtype, a
shape and the flattened data. -/
structure NDArray where
  dtype : DType
  shape : List Nat
  data : List Elem
deriving DecidableEq, Repr

/-- Outcome of one check, mirroring the printed messages: pass_msg on a
content match, fail_msg with both shapes on a shape mismatch, fail_msg
with the payloads on a value mismatch, and a bare fail_msg otherwise. -/
inductive CheckResult where
  | pass (name : String)
  | failShape (name : String) (expected actual : List Nat)
  | failValue (name : String) (expected actual : NDArray)
  | failMsg (msg : String)
deriving DecidableEq, Repr

/-- Whether a check result is a pass (check_eq returned True). -/
def CheckResult.passed : CheckResult → Bool
  | .pass _ => true
  | _ => false

/-- numpy default relative tolerance of np.allclose, 1e-5. -/
def rtol : Frac := fr 1 100000

/-- numpy default absolute tolerance of np.allclose, 1e-8. -/
def atol : Frac := fr 1 100000000

/-- Element-wise criterion of np.allclose with the default tolerances:
absolute difference at most atol + rtol * abs(expected). -/
def elemClose : Elem → Elem → Bool
  | .num x, .num y => Frac.le (Frac.abs (Frac.sub x y)) (Frac.add atol (Frac.mul rtol (Frac.abs y)))
  | _, _ => false

/-- Element-wise exact equality as used by np.array_equal: numeric values
compare by value, text values by string equality. -/
def elemEq : Elem → Elem → Bool
  | .num x, .num y => Frac.eqb x y
  | .str s, .str t => s == t
  | _, _ => false

/-- np.allclose on two arrays of equal shape: every element pair is close. -/
def np_allclose (a b : NDArray) : Bool :=
  (a.data.zip b.data).all fun p => elemClose p.1 p.2

/-- np.array_equal: shapes agree and every element pair is exactly equal. -/
def np_array_equal (a b : NDArray) : Bool :=
  a.shape == b.shape && (a.data.zip b.data).all fun p => elemEq p.1 p.2

/-- check_eq from verify_h5.py: convert both arguments with np.array,
fail with both shapes when the shapes differ, otherwise compare with
np.allclose when the actual dtype is floating and with np.array_equal
otherwise. -/
def check_eq (actual expected : NDArray) (name : String) : CheckResult :=
  if actual.shape ≠ expected.shape then
    CheckResult.failShape (name ++ " shape mismatch") expected.shape actual.shape
  else if actual.dtype = DType.float then
    if np_allclose actual expected then CheckResult.pass (name ++ " content match")
    else CheckResult.failValue (name ++ " value mismatch") expected actual
  else
    if np_array_equal actual expected then CheckResult.pass (name ++ " content match")
    else CheckResult.failValue (name ++ " value mismatch") expected actual

/-- Array built from a list of integers (numpy integer dtype). -/
def intArr (xs : List Int) : NDArray :=
  ⟨DType.int, [xs.length], xs.map fun v => Elem.num (Frac.ofInt v)⟩

/-- Array built from a list of floats (numpy floating dtype). -/
def floatArr (xs : List Frac) : NDArray :=
  ⟨DType.float, [xs.length], xs.map Elem.num⟩

/-- Array built from a list of booleans (numpy bool dtype, stored 0 or 1). -/
def boolArr (bs : List Bool) : NDArray :=
  ⟨DType.bool, [bs.length], bs.map fun b => Elem.num (Frac.ofInt (if b then 1 else 0))⟩

/-- Array built from a list of strings (numpy unicode dtype). -/
def strArr (ss : List String) : NDArray :=
  ⟨DType.str, [ss.length], ss.map Elem.str⟩

/-- A bare integer scalar: np.array of a Python int has the empty shape. -/
def intScalar (v : Int) : NDArray :=
  ⟨DType.int, [], [Elem.num (Frac.ofInt v)]⟩

/-- A bare string scalar: np.array of a Python str has the empty shape. -/
def strScalar (s : String) : NDArray :=
  ⟨DType.str, [], [Elem.str s]⟩

/-- A two dimensional integer array from a rectangular nested list. -/
def intMat (rows : List (List Int)) : NDArray :=
  ⟨DType.int, [rows.length, (rows.headD []).length],
    rows.flatten.map fun v => Elem.num (Frac.ofInt v)⟩

/-- A two dimensional float array from a rectangular nested list. -/
def floatMat (rows : List (List Frac)) : NDArray :=
  ⟨DType.float, [rows.length, (rows.headD []).length], rows.flatten.map Elem.num⟩

/-- Reverse lookup through the h5py enum mapping: the code to label map
built by the dict comprehension over mapping.items(), where a later entry
with the same code overwrites an earlier one. -/
def revLookup (mapping : List (String × Int)) (code : Int) : Option String :=
  (mapping.reverse.find? fun p => p.2 == code).map fun p => p.1

/-- Decode a whole column of enum codes to labels.  The list comprehension
in verify_enum raises KeyError on the first missing code, so the whole
column fails with no partial result. -/
def decodeEnum (mapping : List (String × Int)) : List Int → Option (List String)
  | [] => some []
  | c :: cs =>
    match revLookup mapping c, decodeEnum mapping cs with
    | some l, some ls => some (l :: ls)
    | _, _ => none

/-- Message printed when h5py.check_dtype returns no enum mapping. -/
def notEnumMsg : String := "Dataset is not an HDF5 ENUM"

/-- Message printed when an integer in the data has no enum mapping entry. -/
def enumKeyMsg : String := "Found integer in data with no Enum mapping!"

/-- verify_enum from verify_h5.py: fetch the enum mapping (fail when the
dataset is not an enum), decode the codes inside a try/except that turns a
KeyError into a failed result, then compare the labels with check_eq.
The returned list models the stream of printed check results. -/
def verify_enum (codes : List Int) (mapping : Option (List (String × Int)))
    (expected : List String) : List CheckResult :=
  match mapping with
  | none => [CheckResult.failMsg notEnumMsg]
  | some m =>
    if m.isEmpty then [CheckResult.failMsg notEnumMsg]
    else
      match decodeEnum m codes with
      | none => [CheckResult.failMsg enumKeyMsg]
      | some decoded => [check_eq (strArr decoded) (strArr expected) "Labels"]

/-- A stored column of a compound dataset: plain integers, floats, fixed
width byte strings, or enum typed integers with their mapping. -/
inductive Column where
  | ints (vals : List Int)
  | floats (vals : List Frac)
  | bytes (vals : List String)
  | enum (mapping : List (String × Int)) (vals : List Int)
deriving DecidableEq, Repr

/-- Look a column up by name among the compound dtype fields. -/
def lookupCol (cols : List (String × Column)) (name : String) : Option Column :=
  (cols.find? fun p => p.1 == name).map fun p => p.2

/-- The exception message of the uncaught KeyError raised by the enum
decode inside verify_compound. -/
def keyErrMsg : String := "KeyError: integer with no Enum mapping in compound column"

/-- One iteration of the verify_compound loop: a missing column prints a
failure and the loop continues; byte string columns are decoded to text;
enum columns are decoded through the reverse mapping with NO try/except,
so a missing code raises (Except.error); the decoded column is compared
with check_eq. -/
def checkColumn (cols : List (String × Column)) (colName : String)
    (expectedVals : NDArray) : Except String CheckResult :=
  match lookupCol cols colName with
  | none => Except.ok (CheckResult.failMsg ("Column " ++ colName ++ " missing from compound dataset"))
  | some (Column.ints vs) =>
      Except.ok (check_eq (intArr vs) expectedVals ("Column " ++ colName))
  | some (Column.floats vs) =>
      Except.ok (check_eq (floatArr vs) expectedVals ("Column " ++ colName))
  | some (Column.bytes vs) =>
      Except.ok (check_eq (strArr vs) expectedVals ("Column " ++ colName))
  | some (Column.enum m vs) =>
      match decodeEnum m vs with
      | none => Except.error keyErrMsg
      | some labels =>
          Except.ok (check_eq (strArr labels) expectedVals ("Column " ++ colName))

/-- verify_compound from verify_h5.py: iterate over the expected columns
in order, collect the printed check results, and abort at the first
uncaught exception (the enum KeyError). -/
def verify_compound (cols : List (String × Column)) :
    List (String × NDArray) → Except String (List CheckResult)
  | [] => Except.ok []
  | e :: rest =>
    match checkColumn cols e.1 e.2 with
    | Except.error s => Except.error s
    | Except.ok r =>
      match verify_compound cols rest with
      | Except.error s => Except.error s
      | Except.ok rs => Except.ok (r :: rs)

/-- Abstract model of the HDF5 file interop_test.h5 as the script reads
it: the datasets, the two factor datasets with their enum mappings, the
compound dataset, and the two attributes of vec/int. -/
structure H5File where
  vec_int : NDArray
  vec_dbl : NDArray
  vec_bool : NDArray
  vec_str : List String
  std_codes : List Int
  std_mapping : Option (List (String × Int))
  reord_codes : List Int
  reord_mapping : Option (List (String × Int))
  matrix_int : NDArray
  matrix_dbl : NDArray
  compound_mixed : List (String × Column)
  attr_description : Option String
  attr_version : Option NDArray
deriving Repr

/-- The expected_dict literal passed to verify_compound for compound/mixed. -/
def expectedMixed : List (String × NDArray) :=
  [("id", intArr [1, 2, 3]),
   ("code", strArr ["A-1", "B-2", "C-3"]),
   ("status", strArr ["ok", "fail", "ok"]),
   ("value", floatArr [fr 21 2, Frac.ofInt 20, fr 31 2])]

/-- The sequence of checks the script body performs once the file is
open, in order.  Uncaught exceptions (the compound enum KeyError)
propagate as Except.error and abort the remaining checks. -/
def runChecks (f : H5File) : Except String (List CheckResult) :=
  let r1 := check_eq f.vec_int (intArr [1, 2, -5]) "Integer Vector"
  let r2 := check_eq f.vec_dbl (floatArr [fr 11 10, fr 22 10, fr 314 100]) "Double Vector"
  let r3 := check_eq f.vec_bool (intArr [1, 0, 1]) "Boolean Vector (as 0/1)"
  let r4 := check_eq (strArr f.vec_str) (strArr ["alpha", "bravo", "charlie"]) "String Vector"
  let e1 := verify_enum f.std_codes f.std_mapping ["small", "medium", "small", "large"]
  let e2 := verify_enum f.reord_codes f.reord_mapping ["z", "x", "y"]
  let r5 := check_eq f.matrix_int (intMat [[1, 3, 5], [2, 4, 6]]) "Integer Matrix 2x3"
  let r6 := check_eq f.matrix_dbl
    (floatMat [[fr 1 10, fr 4 10], [fr 2 10, fr 5 10], [fr 3 10, fr 6 10]]) "Double Matrix 3x2"
  match verify_compound f.compound_mixed expectedMixed with
  | Except.error s => Except.error s
  | Except.ok rc =>
    let r7 := match f.attr_description with
      | some s => check_eq (strScalar s) (strScalar "Test Integers") "Attr description"
      | none => CheckResult.failMsg "Attribute description missing"
    let r8 := match f.attr_version with
      | some a => check_eq a (intArr [1]) "Attr version"
      | none => CheckResult.failMsg "Attribute version missing"
    Except.ok ([r1, r2, r3, r4] ++ e1 ++ e2 ++ [r5, r6] ++ rc ++ [r7, r8])

/-- The final unconditional print of the script. -/
def finalPrint : String := "Verification Complete."

/-- Observable outcome of one execution of the script process. -/
structure RunOutcome where
  exitCode : Nat
  finalMessage : Option String
  results : List CheckResult
deriving DecidableEq, Repr

/-- The whole script process: opening the file yields none on an OSError
(uncaught, non zero exit).  An uncaught exception during the checks also
exits non zero without reaching the final print.  Otherwise the script
falls off the end of the file: exit code 0 regardless of how many checks
failed, after printing the fixed final message. -/
def runScript (file : Option H5File) : RunOutcome :=
  match file with
  | none => ⟨1, none, []⟩
  | some f =>
    match runChecks f with
    | Except.error _ => ⟨1, none, []⟩
    | Except.ok rs => ⟨0, some finalPrint, rs⟩

/-- Enum mapping of factor/standard as h5py reports it (label to code). -/
def stdMapping : List (String × Int) := [("small", 0), ("medium", 1), ("large", 2)]

/-- Enum mapping of factor/reordered. -/
def reordMapping : List (String × Int) := [("x", 0), ("y", 1), ("z", 2)]

/-- The compound/mixed columns of a fully conforming file. -/
def goodCompound : List (String × Column) :=
  [("id", Column.ints [1, 2, 3]),
   ("code", Column.bytes ["A-1", "B-2", "C-3"]),
   ("status", Column.enum [("ok", 0), ("fail", 1)] [0, 1, 0]),
   ("value", Column.floats [fr 21 2, Frac.ofInt 20, fr 31 2])]

/-- A file on which every check passes. -/
def goodFile : H5File :=
  { vec_int := intArr [1, 2, -5]
    vec_dbl := floatArr [fr 11 10, fr 22 10, fr 314 100]
    vec_bool := intArr [1, 0, 1]
    vec_str := ["alpha", "bravo", "charlie"]
    std_codes := [0, 1, 0, 2]
    std_mapping := some stdMapping
    reord_codes := [2, 0, 1]
    reord_mapping := some reordMapping
    matrix_int := intMat [[1, 3, 5], [2, 4, 6]]
    matrix_dbl := floatMat [[fr 1 10, fr 4 10], [fr 2 10, fr 5 10], [fr 3 10, fr 6 10]]
    compound_mixed := goodCompound
    attr_description := some "Test Integers"
    attr_version := some (intArr [1]) }

/-- The conforming file with vec/int corrupted: its first check fails but
no exception is raised anywhere. -/
def badFile : H5File := { goodFile with vec_int := intArr [9, 9, 9] }

/-- The compound columns with a status code that has no enum mapping. -/
def abortCompound : List (String × Column) :=
  [("id", Column.ints [1, 2, 3]),
   ("code", Column.bytes ["A-1", "B-2", "C-3"]),
   ("status", Column.enum [("ok", 0), ("fail", 1)] [0, 1, 5]),
   ("value", Column.floats [fr 21 2, Frac.ofInt 20, fr 31 2])]

/-- The conforming file with the unmappable compound status code. -/
def abortFile : H5File := { goodFile with compound_mixed := abortCompound }

/-- The results of running the checks on badFile. -/
def badResults : List CheckResult := (runChecks badFile).toOption.getD []

/-- The 2x3 integer matrix literal of the layout check. -/
def mat23 : NDArray := intMat [[1, 3, 5], [2, 4, 6]]

/-- The transposed 3x2 literal holding the same six numbers. -/
def mat32 : NDArray := intMat [[1, 2], [3, 4], [5, 6]]

/-- Compound columns of the three row corruption scenario: the score
column is corrupted (99.9 instead of 20.5 in the middle). -/
def scnCols : List (String × Column) :=
  [("id", Column.ints [1, 2, 3]),
   ("score", Column.floats [fr 21 2, fr 999 10, fr 31 2]),
   ("label", Column.bytes ["A", "B", "C"])]

/-- Expected columns of the corruption scenario. -/
def scnExpected : List (String × NDArray) :=
  [("id", intArr [1, 2, 3]),
   ("score", floatArr [fr 21 2, fr 41 2, fr 31 2]),
   ("label", strArr ["A", "B", "C"])]

/-- The per column results of the corruption scenario. -/
def scnResults : List CheckResult :=
  (verify_compound scnCols scnExpected).toOption.getD []

/-! Correctness of the fraction arithmetic with respect to ℚ. -/

theorem Frac.den_pos_nat (x : Frac) : 0 < x.den := Nat.succ_pos _

theorem Frac.den_posQ (x : Frac) : (0 : ℚ) < (x.den : ℚ) := by
  exact_mod_cast x.den_pos_nat

theorem Frac.le_iff (x y : Frac) : Frac.le x y = true ↔ x.toRat ≤ y.toRat := by
  rw [Frac.le, decide_eq_true_eq, Frac.toRat, Frac.toRat,
    div_le_div_iff₀ x.den_posQ y.den_posQ]
  constructor
  · intro h; exact_mod_cast h
  · intro h; exact_mod_cast h

theorem Frac.eqb_iff (x y : Frac) : Frac.eqb x y = true ↔ x.toRat = y.toRat := by
  rw [Frac.eqb, decide_eq_true_eq, Frac.toRat, Frac.toRat,
    div_eq_div_iff (ne_of_gt x.den_posQ) (ne_of_gt y.den_posQ)]
  constructor
  · intro h; exact_mod_cast h
  · intro h; exact_mod_cast h

theorem Frac.den_sub (x y : Frac) : (x.sub y).den = x.den * y.den := by
  have h : 0 < (x.dm1 + 1) * (y.dm1 + 1) := Nat.mul_pos (Nat.succ_pos _) (Nat.succ_pos _)
  simp only [Frac.sub, Frac.den]
  omega

theorem Frac.den_add (x y : Frac) : (x.add y).den = x.den * y.den := by
  have h : 0 < (x.dm1 + 1) * (y.dm1 + 1) := Nat.mul_pos (Nat.succ_pos _) (Nat.succ_pos _)
  simp only [Frac.add, Frac.den]
  omega

theorem Frac.den_mul (x y : Frac) : (x.mul y).den = x.den * y.den := by
  have h : 0 < (x.dm1 + 1) * (y.dm1 + 1) := Nat.mul_pos (Nat.succ_pos _) (Nat.succ_pos _)
  simp only [Frac.mul, Frac.den]
  omega

theorem Frac.toRat_sub (x y : Frac) : (x.sub y).toRat = x.toRat - y.toRat := by
  rw [Frac.toRat, Frac.toRat, Frac.toRat, Frac.den_sub,
    div_sub_div _ _ (ne_of_gt x.den_posQ) (ne_of_gt y.den_posQ)]
  have h : ((x.sub y).num : ℚ) = (x.num : ℚ) * (y.den : ℚ) - (y.num : ℚ) * (x.den : ℚ) := by
    simp only [Frac.sub]
    push_cast
    ring
  rw [h]
  push_cast
  ring

theorem Frac.toRat_add (x y : Frac) : (x.add y).toRat = x.toRat + y.toRat := by
  rw [Frac.toRat, Frac.toRat, Frac.toRat, Frac.den_add,
    div_add_div _ _ (ne_of_gt x.den_posQ) (ne_of_gt y.den_posQ)]
  have h : ((x.add y).num : ℚ) = (x.num : ℚ) * (y.den : ℚ) + (y.num : ℚ) * (x.den : ℚ) := by
    simp only [Frac.add]
    push_cast
    ring
  rw [h]
  push_cast
  ring

theorem Frac.toRat_mul (x y : Frac) : (x.mul y).toRat = x.toRat * y.toRat := by
  rw [Frac.toRat, Frac.toRat, Frac.toRat, Frac.den_mul, div_mul_div_comm]
  have h : ((x.mul y).num : ℚ) = (x.num : ℚ) * (y.num : ℚ) := by
    simp only [Frac.mul]
    push_cast
    ring
  rw [h]
  push_cast
  ring

theorem Frac.toRat_abs (x : Frac) : x.abs.toRat = |x.toRat| := by
  rw [Frac.toRat, Frac.toRat, abs_div, abs_of_pos x.den_posQ]
  show ((|x.num| : ℤ) : ℚ) / ((x.den : ℕ) : ℚ) = |(x.num : ℚ)| / ((x.den : ℕ) : ℚ)
  rw [Int.cast_abs]

theorem Frac.toRat_ofInt (n : Int) : (Frac.ofInt n).toRat = (n : ℚ) := by
  rw [Frac.toRat]
  show (n : ℚ) / ((1 : ℕ) : ℚ) = (n : ℚ)
  norm_num

theorem atol_toRat : atol.toRat = 1 / 100000000 := by
  rw [Frac.toRat]
  show ((1 : ℤ) : ℚ) / ((100000000 : ℕ) : ℚ) = 1 / 100000000
  norm_num

theorem rtol_toRat : rtol.toRat = 1 / 100000 := by
  rw [Frac.toRat]
  show ((1 : ℤ) : ℚ) / ((100000 : ℕ) : ℚ) = 1 / 100000
  norm_num

/-! Pointwise characterisation of the element comparisons. -/

theorem elemClose_num_iff (x y : Frac) :
    elemClose (Elem.num x) (Elem.num y) = true ↔
      |x.toRat - y.toRat| ≤ 1 / 100000000 + 1 / 100000 * |y.toRat| := by
  show Frac.le (Frac.abs (Frac.sub x y)) (Frac.add atol (Frac.mul rtol (Frac.abs y))) = true ↔ _
  rw [Frac.le_iff, Frac.toRat_abs, Frac.toRat_sub, Frac.toRat_add, Frac.toRat_mul,
    Frac.toRat_abs, atol_toRat, rtol_toRat]

theorem elemEq_num_iff (x y : Frac) :
    elemEq (Elem.num x) (Elem.num y) = true ↔ x.toRat = y.toRat := by
  show Frac.eqb x y = true ↔ _
  exact Frac.eqb_iff x y

theorem elemEq_str_iff (s t : String) :
    elemEq (Elem.str s) (Elem.str t) = true ↔ s = t := by
  show (s == t) = true ↔ s = t
  exact beq_iff_eq

/-! List helpers linking element-wise comparison of zipped lists to
equality of mapped lists. -/

theorem zip_forall_map_eq_iff {α β γ : Type} (f : α → γ) (g : β → γ) :
    ∀ (xs : List α) (ys : List β), xs.length = ys.length →
      ((∀ p ∈ xs.zip ys, f p.1 = g p.2) ↔ xs.map f = ys.map g) := by
  intro xs
  induction xs with
  | nil =>
    intro ys h
    cases ys with
    | nil => simp
    | cons y yt => simp at h
  | cons x xt ih =>
    intro ys h
    cases ys with
    | nil => simp at h
    | cons y yt =>
      have hlen : xt.length = yt.length := by simpa using h
      simp only [List.zip_cons_cons, List.mem_cons, List.map_cons, List.cons.injEq]
      constructor
      · intro hall
        refine ⟨hall (x, y) (Or.inl rfl), ?_⟩
        exact (ih yt hlen).mp fun p hp => hall p (Or.inr hp)
      · rintro ⟨h1, h2⟩ p hp
        rcases hp with hp | hp
        · subst hp; exact h1
        · exact ((ih yt hlen).mpr h2) p hp

theorem zip_forall_eq_iff {α : Type} (xs ys : List α) (h : xs.length = ys.length) :
    (∀ p ∈ xs.zip ys, p.1 = p.2) ↔ xs = ys := by
  have hm := zip_forall_map_eq_iff (fun a => a) (fun a => a) xs ys h
  simpa using hm

/-! Characterisation of check_eq on arrays of equal shape. -/

theorem check_eq_passed_nonfloat (a e : NDArray) (name : String)
    (hsh : a.shape = e.shape) (hdt : a.dtype ≠ DType.float) :
    (check_eq a e name).passed = np_array_equal a e := by
  rw [check_eq, if_neg (not_not_intro hsh), if_neg hdt]
  cases hc : np_array_equal a e with
  | true => rfl
  | false => rfl

theorem check_eq_passed_float (a e : NDArray) (name : String)
    (hsh : a.shape = e.shape) (hdt : a.dtype = DType.float) :
    (check_eq a e name).passed = np_allclose a e := by
  rw [check_eq, if_neg (not_not_intro hsh), if_pos hdt]
  cases hc : np_allclose a e with
  | true => rfl
  | false => rfl

theorem np_array_equal_eq (a e : NDArray) (hsh : a.shape = e.shape) :
    np_array_equal a e = (a.data.zip e.data).all fun p => elemEq p.1 p.2 := by
  rw [np_array_equal, hsh]
  simp

theorem check_eq_nonfloat_pointwise {α β : Type} (f : α → Elem) (g : β → Elem)
    (da db : DType) (hdt : da ≠ DType.float) (name : String)
    (xs : List α) (ys : List β) (h : xs.length = ys.length) :
    ((check_eq ⟨da, [xs.length], xs.map f⟩ ⟨db, [ys.length], ys.map g⟩ name).passed = true
      ↔ ∀ p ∈ xs.zip ys, elemEq (f p.1) (g p.2) = true) := by
  rw [check_eq_passed_nonfloat _ _ name (by simp [h]) hdt,
    np_array_equal_eq _ _ (by simp [h])]
  show ((xs.map f).zip (ys.map g)).all (fun p => elemEq p.1 p.2) = true ↔ _
  rw [List.zip_map, List.all_eq_true]
  constructor
  · intro hall p hp
    exact hall (Prod.map f g p) (List.mem_map_of_mem _ hp)
  · intro hall q hq
    rcases List.mem_map.mp hq with ⟨p, hp, rfl⟩
    exact hall p hp

theorem check_eq_float_pointwise (xs ys : List Frac) (name : String)
    (h : xs.length = ys.length) :
    ((check_eq (floatArr xs) (floatArr ys) name).passed = true
      ↔ ∀ p ∈ xs.zip ys, elemClose (Elem.num p.1) (Elem.num p.2) = true) := by
  rw [check_eq_passed_float _ _ name (by simp [floatArr, h]) rfl, np_allclose]
  show ((xs.map Elem.num).zip (ys.map Elem.num)).all (fun p => elemClose p.1 p.2) = true ↔ _
  rw [List.zip_map, List.all_eq_true]
  constructor
  · intro hall p hp
    exact hall (Prod.map Elem.num Elem.num p) (List.mem_map_of_mem _ hp)
  · intro hall q hq
    rcases List.mem_map.mp hq with ⟨p, hp, rfl⟩
    exact hall p hp

/-! Enum decoding helpers. -/

theorem decodeEnum_eq_none_of_mem (m : List (String × Int)) :
    ∀ (codes : List Int) (c : Int), c ∈ codes → revLookup m c = none →
      decodeEnum m codes = none := by
  intro codes
  induction codes with
  | nil => intro c hc; cases hc
  | cons d ds ih =>
    intro c hc hm
    rcases List.mem_cons.mp hc with h | h
    · subst h
      rw [decodeEnum, hm]
    · rw [decodeEnum, ih c h hm]
      cases revLookup m d <;> rfl

theorem verify_enum_fail_of_decode_none (m : List (String × Int)) (codes : List Int)
    (expected : List String) (hne : m.isEmpty = false) (hd : decodeEnum m codes = none) :
    verify_enum codes (some m) expected = [CheckResult.failMsg enumKeyMsg] := by
  rw [verify_enum]
  rw [if_neg (by simp [hne])]
  rw [hd]

/-! Structure of verify_compound runs that complete without an exception. -/

theorem verify_compound_cons (cols : List (String × Column)) (e : String × NDArray)
    (rest : List (String × NDArray)) (rs : List CheckResult)
    (h : verify_compound cols (e :: rest) = Except.ok rs) :
    ∃ r rs2, checkColumn cols e.1 e.2 = Except.ok r ∧
      verify_compound cols rest = Except.ok rs2 ∧ rs = r :: rs2 := by
  rw [verify_compound] at h
  cases hc : checkColumn cols e.1 e.2 with
  | error s => rw [hc] at h; simp at h
  | ok r =>
    rw [hc] at h
    cases hrec : verify_compound cols rest with
    | error s => rw [hrec] at h; simp at h
    | ok rs2 =>
      rw [hrec] at h
      simp only [Except.ok.injEq] at h
      exact ⟨r, rs2, rfl, rfl, h.symm⟩

/-! Auxiliary facts for the exact-equality claims. -/

theorem bool_encode_inj (a b : Bool) :
    (((if a then (1 : ℤ) else 0) : ℤ) : ℚ) = (((if b then (1 : ℤ) else 0) : ℤ) : ℚ) ↔ a = b := by
  cases a <;> cases b <;> norm_num

/-- Claim C2: for every pair whose shapes differ, check_eq reports a
shape mismatch carrying both shapes and returns before any value
comparison, so the result is never a value mismatch. -/
theorem check_eq_shape_short_circuit (a e : NDArray) (name : String)
    (h : a.shape ≠ e.shape) :
    check_eq a e name = CheckResult.failShape (name ++ " shape mismatch") e.shape a.shape := by
  rw [check_eq, if_pos h]

/-- Witness for C2: the 2x3 integer matrix against the transposed 3x2
literal holding the same six numbers is a shape mismatch, not a value
mismatch. -/
theorem check_eq_shape_short_circuit_witness :
    check_eq mat23 mat32 "Integer Matrix 2x3"
      = CheckResult.failShape "Integer Matrix 2x3 shape mismatch" [3, 2] [2, 3] :=
  check_eq_shape_short_circuit mat23 mat32 "Integer Matrix 2x3" (by decide)

/-- Claim C5: for floating point sequences of equal shape, the comparison
passes iff every element pair differs by no more than the configured
tolerance, absolute 1e-8 plus relative 1e-5 times the magnitude of the
expected element (the np.allclose default criterion). -/
theorem check_eq_float_tolerance (xs ys : List Frac) (name : String)
    (h : xs.length = ys.length) :
    ((check_eq (floatArr xs) (floatArr ys) name).passed = true ↔
      ∀ p ∈ xs.zip ys,
        |p.1.toRat - p.2.toRat| ≤ 1 / 100000000 + 1 / 100000 * |p.2.toRat|) := by
  rw [check_eq_float_pointwise xs ys name h]
  constructor
  · intro hall p hp
    exact (elemClose_num_iff p.1 p.2).mp (hall p hp)
  · intro hall p hp
    exact (elemClose_num_iff p.1 p.2).mpr (hall p hp)

/-- Witness for C5: identical doubles pass; doubles one apart fail. -/
theorem check_eq_float_tolerance_witness :
    (check_eq (floatArr [fr 11 10]) (floatArr [fr 11 10]) "Double Vector").passed = true ∧
    (check_eq (floatArr [fr 11 10]) (floatArr [fr 21 10]) "Double Vector").passed = false := by
  constructor
  · refine (check_eq_float_tolerance [fr 11 10] [fr 11 10] "Double Vector" rfl).mpr ?_
    intro p hp
    simp at hp
    subst hp
    norm_num [Frac.toRat, fr, Frac.den]
    positivity
  · rfl

/-- Claim C6: for integer, boolean and text sequences of equal shape the
comparison passes iff the two sides are exactly equal elementwise, with
no tolerance applied. -/
theorem check_eq_exact_equality (name : String) :
    (∀ xs ys : List Int, xs.length = ys.length →
      ((check_eq (intArr xs) (intArr ys) name).passed = true ↔ xs = ys)) ∧
    (∀ bs cs : List Bool, bs.length = cs.length →
      ((check_eq (boolArr bs) (boolArr cs) name).passed = true ↔ bs = cs)) ∧
    (∀ ss ts : List String, ss.length = ts.length →
      ((check_eq (strArr ss) (strArr ts) name).passed = true ↔ ss = ts)) := by
  refine ⟨?_, ?_, ?_⟩
  · intro xs ys h
    have hpt : (check_eq (intArr xs) (intArr ys) name).passed = true ↔
        ∀ p ∈ xs.zip ys,
          elemEq (Elem.num (Frac.ofInt p.1)) (Elem.num (Frac.ofInt p.2)) = true :=
      check_eq_nonfloat_pointwise _ _ DType.int DType.int (by decide) name xs ys h
    rw [hpt, ← zip_forall_eq_iff xs ys h]
    constructor
    · intro hall p hp
      have hv := (elemEq_num_iff _ _).mp (hall p hp)
      rw [Frac.toRat_ofInt, Frac.toRat_ofInt] at hv
      exact_mod_cast hv
    · intro hall p hp
      refine (elemEq_num_iff _ _).mpr ?_
      rw [Frac.toRat_ofInt, Frac.toRat_ofInt]
      exact_mod_cast hall p hp
  · intro bs cs h
    have hpt : (check_eq (boolArr bs) (boolArr cs) name).passed = true ↔
        ∀ p ∈ bs.zip cs,
          elemEq (Elem.num (Frac.ofInt (if p.1 then 1 else 0)))
            (Elem.num (Frac.ofInt (if p.2 then 1 else 0))) = true :=
      check_eq_nonfloat_pointwise _ _ DType.bool DType.bool (by decide) name bs cs h
    rw [hpt, ← zip_forall_eq_iff bs cs h]
    constructor
    · intro hall p hp
      have hv := (elemEq_num_iff _ _).mp (hall p hp)
      rw [Frac.toRat_ofInt, Frac.toRat_ofInt] at hv
      exact (bool_encode_inj p.1 p.2).mp hv
    · intro hall p hp
      refine (elemEq_num_iff _ _).mpr ?_
      rw [Frac.toRat_ofInt, Frac.toRat_ofInt]
      exact (bool_encode_inj p.1 p.2).mpr (hall p hp)
  · intro ss ts h
    have hpt : (check_eq (strArr ss) (strArr ts) name).passed = true ↔
        ∀ p ∈ ss.zip ts, elemEq (Elem.str p.1) (Elem.str p.2) = true :=
      check_eq_nonfloat_pointwise _ _ DType.str DType.str (by decide) name ss ts h
    rw [hpt, ← zip_forall_eq_iff ss ts h]
    constructor
    · intro hall p hp
      exact (elemEq_str_iff _ _).mp (hall p hp)
    · intro hall p hp
      exact (elemEq_str_iff _ _).mpr (hall p hp)

/-- Witness for C6: equal integer vectors pass; different strings fail. -/
theorem check_eq_exact_equality_witness :
    (check_eq (intArr [1, 2, -5]) (intArr [1, 2, -5]) "Integer Vector").passed = true ∧
    (check_eq (strArr ["alpha"]) (strArr ["bravo"]) "String Vector").passed = false := by
  constructor
  · exact ((check_eq_exact_equality "Integer Vector").1 [1, 2, -5] [1, 2, -5] rfl).mpr rfl
  · have h := (check_eq_exact_equality "String Vector").2.2 ["alpha"] ["bravo"] rfl
    cases hb : (check_eq (strArr ["alpha"]) (strArr ["bravo"]) "String Vector").passed with
    | false => rfl
    | true => exact absurd (h.mp hb) (by decide)

/-- Claim C10: the comparison policy is selected by the dtype of the
actual array only: an integer actual against a floating expected is
compared with exact value equality, so no tolerance is applied in that
direction. -/
theorem check_eq_policy_actual_dtype (xs : List Int) (ys : List Frac) (name : String)
    (h : xs.length = ys.length) :
    ((check_eq (intArr xs) (floatArr ys) name).passed = true ↔
      xs.map (Int.cast : ℤ → ℚ) = ys.map Frac.toRat) := by
  have hpt : (check_eq (intArr xs) (floatArr ys) name).passed = true ↔
      ∀ p ∈ xs.zip ys, elemEq (Elem.num (Frac.ofInt p.1)) (Elem.num p.2) = true :=
    check_eq_nonfloat_pointwise _ _ DType.int DType.float (by decide) name xs ys h
  rw [hpt, ← zip_forall_map_eq_iff (Int.cast : ℤ → ℚ) Frac.toRat xs ys h]
  constructor
  · intro hall p hp
    have hv := (elemEq_num_iff _ _).mp (hall p hp)
    rw [Frac.toRat_ofInt] at hv
    exact hv
  · intro hall p hp
    refine (elemEq_num_iff _ _).mpr ?_
    rw [Frac.toRat_ofInt]
    exact hall p hp

/-- Witness for C10: integer actual 1 against floating expected
1 + 1e-9 fails although the pair is within the allclose tolerance, so
exact equality, not the tolerance, was used. -/
theorem check_eq_policy_actual_dtype_witness :
    (check_eq (intArr [1]) (floatArr [fr 1000000001 1000000000]) "Attr version").passed
      = false ∧
    elemClose (Elem.num (Frac.ofInt 1)) (Elem.num (fr 1000000001 1000000000)) = true := by
  constructor
  · have h := check_eq_policy_actual_dtype [1] [fr 1000000001 1000000000] "Attr version" rfl
    cases hb : (check_eq (intArr [1]) (floatArr [fr 1000000001 1000000000])
        "Attr version").passed with
    | false => rfl
    | true =>
      have heq := h.mp hb
      simp only [List.map_cons, List.map_nil, List.cons.injEq, and_true] at heq
      norm_num [fr, Frac.toRat, Frac.den] at heq
  · rfl

/-- Claim C4: enum decoding maps each stored code to its label through
the code to label mapping: codes [0,1,0,2] under the standard mapping
decode to small, medium, small, large; and a column containing any
unmapped code fails to decode as a whole (no partial decode), which
verify_enum reports as the failed decode result. -/
theorem verify_enum_decode (m : List (String × Int)) (codes : List Int)
    (expected : List String) (c : Int) (hc : c ∈ codes) (hm : revLookup m c = none)
    (hne : m.isEmpty = false) :
    decodeEnum stdMapping [0, 1, 0, 2] = some ["small", "medium", "small", "large"] ∧
    decodeEnum m codes = none ∧
    verify_enum codes (some m) expected = [CheckResult.failMsg enumKeyMsg] := by
  have hd := decodeEnum_eq_none_of_mem m codes c hc hm
  exact ⟨rfl, hd, verify_enum_fail_of_decode_none m codes expected hne hd⟩

/-- Witness for C4: code 3 has no entry in the standard mapping, so the
column [0,1,0,2,3] fails to decode as a whole. -/
theorem verify_enum_decode_witness :
    decodeEnum stdMapping [0, 1, 0, 2] = some ["small", "medium", "small", "large"] ∧
    decodeEnum stdMapping [0, 1, 0, 2, 3] = none ∧
    verify_enum [0, 1, 0, 2, 3] (some stdMapping) ["small", "medium", "small", "large"]
      = [CheckResult.failMsg enumKeyMsg] :=
  verify_enum_decode stdMapping [0, 1, 0, 2, 3] ["small", "medium", "small", "large"] 3
    (by decide) rfl rfl

/-- Claim C8: a compound dataset whose run completes without an exception
is checked column by column independently: there is one result per
expected column, each result is exactly the check of that column alone,
and the aggregate passes iff every column check passed. -/
theorem verify_compound_columnwise (cols : List (String × Column)) :
    ∀ (expected : List (String × NDArray)) (rs : List CheckResult),
      verify_compound cols expected = Except.ok rs →
      rs.length = expected.length ∧
      (∀ i (h1 : i < expected.length) (h2 : i < rs.length),
        checkColumn cols (expected.get ⟨i, h1⟩).1 (expected.get ⟨i, h1⟩).2
          = Except.ok (rs.get ⟨i, h2⟩)) ∧
      (rs.all CheckResult.passed = true ↔ ∀ r ∈ rs, r.passed = true) := by
  intro expected
  induction expected with
  | nil =>
    intro rs h
    rw [verify_compound] at h
    simp only [Except.ok.injEq] at h
    subst h
    refine ⟨rfl, ?_, List.all_eq_true⟩
    intro i h1 h2
    exact absurd h1 (Nat.not_lt_zero i)
  | cons e rest ih =>
    intro rs h
    obtain ⟨r, rs2, hc, hrec, rfl⟩ := verify_compound_cons cols e rest rs h
    obtain ⟨hlen, hidx, _⟩ := ih rs2 hrec
    refine ⟨by simp [hlen], ?_, List.all_eq_true⟩
    intro i h1 h2
    cases i with
    | zero => simpa using hc
    | succ n =>
      have h1n : n < rest.length := by simpa using h1
      have h2n : n < rs2.length := by simpa using h2
      simpa using hidx n h1n h2n

/-- Witness for C8: in the three row scenario with a corrupted score
column, the columnwise structure holds and exactly the score sub-check
fails while id and label still pass. -/
theorem verify_compound_columnwise_witness :
    (scnResults.length = scnExpected.length ∧
      (∀ i (h1 : i < scnExpected.length) (h2 : i < scnResults.length),
        checkColumn scnCols (scnExpected.get ⟨i, h1⟩).1 (scnExpected.get ⟨i, h1⟩).2
          = Except.ok (scnResults.get ⟨i, h2⟩)) ∧
      (scnResults.all CheckResult.passed = true ↔ ∀ r ∈ scnResults, r.passed = true)) ∧
    scnResults.map CheckResult.passed = [true, false, true] :=
  ⟨verify_compound_columnwise scnCols scnExpected scnResults rfl, rfl⟩

/-- Counterexample to claim C3: a missing enum mapping entry for the
status column of the compound dataset is not caught at the check
boundary: verify_compound aborts with the uncaught KeyError, and the run
terminates without reaching the final print. -/
theorem compound_enum_decode_abort_cex :
    verify_compound abortCompound expectedMixed = Except.error keyErrMsg ∧
    runScript (some abortFile) = ⟨1, none, []⟩ :=
  ⟨rfl, rfl⟩

/-- Claim C3 amended: a decode error inside verify_enum is caught at the
check boundary and converted into a failed result, but a missing enum
mapping entry for a column of a compound dataset is not caught: it
aborts the whole run, as does a file open failure. -/
theorem decode_error_boundary (m : List (String × Int)) (codes : List Int)
    (expected : List String) (hne : m.isEmpty = false) (hd : decodeEnum m codes = none) :
    (verify_enum codes (some m) expected = [CheckResult.failMsg enumKeyMsg] ∧
      (verify_enum codes (some m) expected).all (fun r => !r.passed) = true) ∧
    verify_compound abortCompound expectedMixed = Except.error keyErrMsg ∧
    (runScript (some abortFile)).exitCode = 1 ∧ (runScript none).exitCode = 1 := by
  have h1 := verify_enum_fail_of_decode_none m codes expected hne hd
  refine ⟨⟨h1, ?_⟩, rfl, rfl, rfl⟩
  rw [h1]
  rfl

/-- Witness for C3 amended: the standard mapping with unmapped code 3. -/
theorem decode_error_boundary_witness :
    (verify_enum [3] (some stdMapping) ["small"] = [CheckResult.failMsg enumKeyMsg] ∧
      (verify_enum [3] (some stdMapping) ["small"]).all (fun r => !r.passed) = true) ∧
    verify_compound abortCompound expectedMixed = Except.error keyErrMsg ∧
    (runScript (some abortFile)).exitCode = 1 ∧ (runScript none).exitCode = 1 :=
  decode_error_boundary stdMapping [3] ["small"] rfl rfl

/-- Claim C1 is violated by the code: on a file where a check fails but
no exception is raised, the process still exits 0, because the script
never aggregates results and never calls sys.exit; only an uncaught
exception, such as the file open failure, exits non zero. -/
theorem run_exit_code_bug :
    (runScript (some badFile)).results.any (fun r => !r.passed) = true ∧
    (runScript (some badFile)).exitCode = 0 ∧
    (runScript none).exitCode = 1 :=
  ⟨rfl, rfl, rfl⟩

/-- Counterexample to claim C9: even when every check passes, the run
prints only the fixed final message, which is not ALL TESTS PASSED, and
no aggregate summary is produced. -/
theorem final_message_cex :
    (runScript (some goodFile)).results.all CheckResult.passed = true ∧
    (runScript (some goodFile)).finalMessage = some finalPrint ∧
    finalPrint ≠ "ALL TESTS PASSED" :=
  ⟨rfl, rfl, by decide⟩

/-- Claim C9 amended: whenever the checks complete without an uncaught
exception, the run ends with the fixed message Verification Complete and
exit code 0, regardless of how many checks failed; no aggregate pass or
failure summary is printed. -/
theorem final_message_fixed (f : H5File) (rs : List CheckResult)
    (h : runChecks f = Except.ok rs) :
    (runScript (some f)).finalMessage = some finalPrint ∧
    (runScript (some f)).exitCode = 0 ∧
    (runScript (some f)).results = rs := by
  simp [runScript, h]

/-- Witness for C9 amended: the run on the corrupted file, whose first
check fails, still ends with the fixed final message and exit code 0. -/
theorem final_message_fixed_witness :
    (runScript (some badFile)).finalMessage = some finalPrint ∧
    (runScript (some badFile)).exitCode = 0 ∧
    (runScript (some badFile)).results = badResults :=
  final_message_fixed badFile badResults rfl

/-- Counterexample to claim C7: the one element array [1] compared to the
bare scalar 1 is a shape mismatch, shape (1,) against shape (), so the
check fails instead of passing. -/
theorem array_of_one_vs_scalar_cex :
    check_eq (intArr [1]) (intScalar 1) "Attr version"
      = CheckResult.failShape "Attr version shape mismatch" [] [1] ∧
    (check_eq (intArr [1]) (intScalar 1) "Attr version").passed = false :=
  ⟨rfl, rfl⟩

/-- Claim C7 amended: comparing the one element array of v against the
bare scalar v reports a shape mismatch and fails, for every v; a length
one array instead compares equal to the length one list literal of the
same value, which is how the script writes its expected attribute. -/
theorem array_of_one_vs_scalar (v : Int) (name : String) :
    check_eq (intArr [v]) (intScalar v) name
      = CheckResult.failShape (name ++ " shape mismatch") [] [1] ∧
    (check_eq (intArr [v]) (intArr [v]) name).passed = true := by
  constructor
  · have hsh : (intArr [v]).shape ≠ (intScalar v).shape := by
      simp [intArr, intScalar]
    rw [check_eq, if_pos hsh]
    rfl
  · have hpt : (check_eq (intArr [v]) (intArr [v]) name).passed = true ↔
        ∀ p ∈ ([v].zip [v]),
          elemEq (Elem.num (Frac.ofInt p.1)) (Elem.num (Frac.ofInt p.2)) = true :=
      check_eq_nonfloat_pointwise _ _ DType.int DType.int (by decide) name [v] [v] rfl
    refine hpt.mpr ?_
    intro p hp
    simp at hp
    subst hp
    exact (elemEq_num_iff _ _).mpr rfl
